import Mathlib

/-!
Verification of the per-pixel classification algorithms of the
NDVI vegetation-cover-change scripts (Google Earth Engine JavaScript).

Every computation in the scripts is pixel-local, so the embedding models a
pixel's value in an `ee.Image` as `Option ℚ` (or `Option ℤ` for integer class
codes): `none` is a masked (NoData) pixel, `some v` an unmasked value.

The Earth Engine per-pixel operator semantics used by the scripts, modelled
below exactly as documented by the Earth Engine API:

* `image.where(test, value)`: the output takes `value` where `test` is
  nonzero; where `test` is zero or masked the input value is kept; the
  output is masked exactly where the input image is masked.
* binary operators (`gte`, `gt`, `lt`, `eq`, `and`, `or`, `multiply`,
  `subtract`, `divide`): the output is masked where either operand is masked.
* `image.divide(b)`: returns 0 for division by 0.
* `image.updateMask(m)`: output is masked where `m` is zero or masked.
* `image.selfMask()`: masks pixels whose value is 0.
* `collection.min()`: per-pixel minimum over the unmasked values; masked
  when every member is masked there.
* `collection.median()`: per-pixel median of the unmasked values; masked for
  a pixel with no unmasked observations (empty filtered set).
* `image.clamp(lo, hi)`: clamps unmasked values into `[lo, hi]`.
-/

namespace NDVIChange

/-- Model of `ee.Image.where(test, value)` at one pixel: the input pixel is
replaced by `value` only where `test` is unmasked and true; a masked `test`
keeps the input, and the output is masked exactly where the input is masked. -/
def eeWhere {α : Type} (input : Option α) (test : Option Bool) (value : α) : Option α :=
  input.map (fun x => if test = some true then value else x)

/-- Model of `ee.Image.and` at one pixel: masked when either operand is masked. -/
def oand (a b : Option Bool) : Option Bool :=
  match a, b with
  | some x, some y => some (x && y)
  | _, _ => none

/-- Model of `ee.Image.or` at one pixel: masked when either operand is masked. -/
def oor (a b : Option Bool) : Option Bool :=
  match a, b with
  | some x, some y => some (x || y)
  | _, _ => none

/-- Model of `ee.Image.updateMask(m)` at one pixel: keep the pixel only where
the mask is unmasked and nonzero. -/
def updateMask {α : Type} (img : Option α) (m : Option Bool) : Option α :=
  if m = some true then img else none

/-- Model of `ee.Image.selfMask()` at one pixel: a zero value becomes masked. -/
def selfMask (img : Option ℤ) : Option ℤ :=
  match img with
  | none => none
  | some v => if v = 0 then none else some v

/-- Model of `ee.Image.divide` at one pixel value: Earth Engine returns 0 for
division by 0. -/
def eeDiv (a b : ℚ) : ℚ :=
  if b = 0 then 0 else a / b

/-- Model of `ee.Image.clamp(lo, hi)` at one unmasked pixel value. -/
def eeClamp (lo hi v : ℚ) : ℚ :=
  min (max v lo) hi

/-- Lift of a binary pointwise operation to two maskable pixels: masked when
either operand is masked (Earth Engine binary-operator semantics). -/
def omap2 {α β γ : Type} (f : α → β → γ) : Option α → Option β → Option γ
  | some a, some b => some (f a b)
  | _, _ => none

/-- Model of `collection.median().normalizedDifference(...)` at one pixel with
the pixel's unmasked seasonal NDVI observations listed: the median of the
values, masked when the filtered observation set is empty (Earth Engine
median-reducer semantics). -/
def medianComposite (obs : List ℚ) : Option ℚ :=
  let sorted := obs.mergeSort (fun x y => decide (x ≤ y))
  if sorted.length = 0 then none
  else if sorted.length % 2 = 1 then
    some (sorted.getD (sorted.length / 2) 0)
  else
    some ((sorted.getD (sorted.length / 2 - 1) 0 + sorted.getD (sorted.length / 2) 0) / 2)

/-! Configuration constants of the scripts (`// 1. CONFIGURATION`).  The NDVI
thresholds are the literals 0.6 / 0.4 / 0.2 shifted by the global
`SENSITIVITY_ADJUSTMENT`, kept here as a parameter `a` (its default is 0). -/

/-- Source: `var startYear = 1985;` -/
def startYear : ℤ := 1985

/-- Source: `var endYear = 2025;` -/
def endYear : ℤ := 2025

/-- Source: `var DENSE_CANOPY = 0.6 + SENSITIVITY_ADJUSTMENT;` -/
def DENSE_CANOPY (a : ℚ) : ℚ := 3 / 5 + a

/-- Source: `var TRANSITIONAL = 0.4 + SENSITIVITY_ADJUSTMENT;` -/
def TRANSITIONAL (a : ℚ) : ℚ := 2 / 5 + a

/-- Source: `var SPARSE = 0.2 + SENSITIVITY_ADJUSTMENT;` -/
def SPARSE (a : ℚ) : ℚ := 1 / 5 + a

/-- Source: `var GAINING_SLOPE = 0.005;` -/
def GAINING_SLOPE : ℚ := 1 / 200

/-- Source: `var LOSING_SLOPE = -0.005;` -/
def LOSING_SLOPE : ℚ := -1 / 200

/-- Source (`part_000`): `var SIGNIFICANCE_LEVEL = 0.05;` -/
def SIGNIFICANCE_LEVEL : ℚ := 1 / 20

/-- Source (`ndvi_threshold_change.js` lines 108-113 and `part_000` lines
118-123, identical): vegetation class 1=Dense, 2=Transitional, 3=Sparse,
4=Bare, built as `ee.Image(4).where(ndvi.gte(SPARSE), 3)
.where(ndvi.gte(TRANSITIONAL), 2).where(ndvi.gte(DENSE_CANOPY), 1)`. -/
def classifyNDVI (a : ℚ) (ndvi : Option ℚ) : Option ℤ :=
  eeWhere (eeWhere (eeWhere (some 4)
      (ndvi.map (fun n => decide (SPARSE a ≤ n))) 3)
      (ndvi.map (fun n => decide (TRANSITIONAL a ≤ n))) 2)
      (ndvi.map (fun n => decide (DENSE_CANOPY a ≤ n))) 1

/-- Mirror of the specification's `classify_state` rule, written from the
spec's words for comparison with `classifyNDVI`: `ndvi >= DENSE → Dense`;
else `ndvi >= TRANSITIONAL → Transitional`; else `ndvi >= SPARSE → Sparse`;
else `Bare`, with the source's integer codes 1=Dense .. 4=Bare. -/
def classifyStateSpec (a n : ℚ) : ℤ :=
  if DENSE_CANOPY a ≤ n then 1
  else if TRANSITIONAL a ≤ n then 2
  else if SPARSE a ≤ n then 3
  else 4

/-- Density rank of a class code (1=Dense .. 4=Bare): Bare has rank 0, Dense
rank 3, so higher rank means denser vegetation. -/
def densityRank (c : ℤ) : ℤ := 4 - c

lemma classifyNDVI_some (a n : ℚ) :
    classifyNDVI a (some n) = some (classifyStateSpec a n) := by
  unfold classifyNDVI classifyStateSpec eeWhere
  by_cases h1 : DENSE_CANOPY a ≤ n
  · have h2 : TRANSITIONAL a ≤ n := by
      unfold DENSE_CANOPY at h1; unfold TRANSITIONAL; linarith
    have h3 : SPARSE a ≤ n := by
      unfold DENSE_CANOPY at h1; unfold SPARSE; linarith
    simp [h1, h2, h3]
  · by_cases h2 : TRANSITIONAL a ≤ n
    · have h3 : SPARSE a ≤ n := by
        unfold TRANSITIONAL at h2; unfold SPARSE; linarith
      simp [h1, h2, h3]
    · by_cases h3 : SPARSE a ≤ n
      · simp [h1, h2, h3]
      · simp [h1, h2, h3]

lemma classifyNDVI_none (a : ℚ) : classifyNDVI a none = some 4 := rfl

/-- C1 (counterexample).  The claim says a masked (NoData) composite — e.g.
from an empty observation set — classifies as NoData, never as Bare.  In the
code, `classifyNDVI` starts from the unmasked constant `ee.Image(4)` and
`where` keeps that base wherever its test is masked, so the masked composite
produced by an empty observation set classifies as Bare (4), not as NoData. -/
theorem c1_counterexample_masked_is_bare :
    medianComposite [] = none ∧
    classifyNDVI 0 (medianComposite []) = some 4 ∧
    classifyNDVI 0 (medianComposite []) ≠ none := by
  have h0 : medianComposite [] = none := by simp [medianComposite]
  refine ⟨h0, ?_, ?_⟩
  · rw [h0]; exact classifyNDVI_none 0
  · rw [h0, classifyNDVI_none]
    exact fun h => Option.noConfusion h

/-- C1 (amended).  For every sensitivity offset, a pixel whose composite NDVI
is masked (NoData) receives the default state class Bare (code 4) from
`classifyNDVI`, because `ee.Image.where` keeps the unmasked constant base
image wherever its test is masked; the NoData mask does not propagate into
the state classification. -/
theorem c1_masked_composite_defaults_to_bare (a : ℚ) :
    classifyNDVI a none = some 4 ∧ classifyNDVI a none ≠ none := by
  refine ⟨classifyNDVI_none a, ?_⟩
  intro h
  rw [classifyNDVI_none] at h
  exact Option.noConfusion h

/-- C7.  `classify_state` is total (always yields an unmasked class code for
an unmasked NDVI value) and implements `>=`-threshold semantics: Dense when
`DENSE_CANOPY ≤ n`, else Transitional when `TRANSITIONAL ≤ n`, else Sparse
when `SPARSE ≤ n`, else Bare — a value exactly at a threshold classifies
into the higher-density class.  Stated as equality with the spec's rule
`classifyStateSpec`, for every sensitivity offset `a` and NDVI value `n`. -/
theorem c7_classify_state_threshold_exact (a n : ℚ) :
    classifyNDVI a (some n) = some (classifyStateSpec a n) :=
  classifyNDVI_some a n

/-- C8.  Monotonicity of the state classifier: raising a pixel's NDVI never
decreases its density rank.  For NDVI values `n1 < n2` against the same
thresholds, the rank of the class of `n1` is at most the rank of the class
of `n2`. -/
theorem c8_classify_monotone (a n1 n2 : ℚ) (h : n1 < n2) :
    densityRank ((classifyNDVI a (some n1)).getD 0) ≤
      densityRank ((classifyNDVI a (some n2)).getD 0) := by
  rw [classifyNDVI_some, classifyNDVI_some]
  unfold classifyStateSpec densityRank
  by_cases h1 : DENSE_CANOPY a ≤ n1
  · have : DENSE_CANOPY a ≤ n2 := by linarith
    simp [h1, this]
  · by_cases h2 : TRANSITIONAL a ≤ n1
    · have h2' : TRANSITIONAL a ≤ n2 := by linarith
      by_cases hd : DENSE_CANOPY a ≤ n2 <;> simp [h1, h2, h2', hd]
    · by_cases h3 : SPARSE a ≤ n1
      · have h3' : SPARSE a ≤ n2 := by linarith
        by_cases hd : DENSE_CANOPY a ≤ n2 <;>
          by_cases ht : TRANSITIONAL a ≤ n2 <;>
            simp [h1, h2, h3, h3', hd, ht]
      · by_cases hd : DENSE_CANOPY a ≤ n2 <;>
          by_cases ht : TRANSITIONAL a ≤ n2 <;>
            by_cases hs : SPARSE a ≤ n2 <;>
              simp [h1, h2, h3, hd, ht, hs]

/-- C8 (witness). -/
theorem c8_witness :
    (1 : ℚ) / 10 < 1 / 2 ∧
    densityRank ((classifyNDVI 0 (some (1 / 10))).getD 0) ≤
      densityRank ((classifyNDVI 0 (some (1 / 2))).getD 0) :=
  ⟨by norm_num, c8_classify_monotone 0 (1 / 10) (1 / 2) (by norm_num)⟩

/-- C9.  For every value of the global sensitivity offset, the three derived
state thresholds keep the strict ordering `SPARSE < TRANSITIONAL <
DENSE_CANOPY`, because the same offset is added to the fixed literals
0.2 < 0.4 < 0.6; the threshold-ordering configuration error
(`SPARSE >= TRANSITIONAL`) is unreachable under this configuration scheme. -/
theorem c9_threshold_ordering (a : ℚ) :
    SPARSE a < TRANSITIONAL a ∧ TRANSITIONAL a < DENSE_CANOPY a ∧
      ¬ TRANSITIONAL a ≤ SPARSE a := by
  unfold SPARSE TRANSITIONAL DENSE_CANOPY
  refine ⟨by linarith, by linarith, by intro h; linarith⟩

/-! Trend classification.  `ndvi_threshold_change.js` lines 145-147 classify
the long-term OLS slope alone; `part_000` lines 152-178 additionally gate the
classification by the Kendall-correlation p-value (`significantTrend =
pValue.lt(SIGNIFICANCE_LEVEL)`). -/

/-- Comparison image `img.eq(k)` for an integer class image. -/
def imgEq (img : Option ℤ) (k : ℤ) : Option Bool :=
  img.map (fun v => decide (v = k))

/-- Comparison image `img.gte(k)` for an integer class image. -/
def imgGte (img : Option ℤ) (k : ℤ) : Option Bool :=
  img.map (fun v => decide (k ≤ v))

/-- Comparison image `img.gt(k)` for an integer class image. -/
def imgGt (img : Option ℤ) (k : ℤ) : Option Bool :=
  img.map (fun v => decide (k < v))

/-- Source (`ndvi_threshold_change.js` lines 145-147): trend class 1=Gaining,
2=Stable, 3=Losing, from the long-term slope alone:
`ee.Image(2).where(slope.gt(GAINING_SLOPE), 1).where(slope.lt(LOSING_SLOPE), 3)`. -/
def trendClass (slope : Option ℚ) : Option ℤ :=
  eeWhere (eeWhere (some 2)
      (slope.map (fun s => decide (GAINING_SLOPE < s))) 1)
      (slope.map (fun s => decide (s < LOSING_SLOPE))) 3

/-- Source (`part_000` line 174): `var significantTrend = pValue.lt(SIGNIFICANCE_LEVEL);` -/
def significantTrend (pValue : Option ℚ) : Option Bool :=
  pValue.map (fun p => decide (p < SIGNIFICANCE_LEVEL))

/-- Source (`part_000` lines 176-178): the significance-gated trend class,
`ee.Image(2).where(slope.gt(GAINING_SLOPE).and(significantTrend), 1)
.where(slope.lt(LOSING_SLOPE).and(significantTrend), 3)`. -/
def trendClassSig (slope pValue : Option ℚ) : Option ℤ :=
  eeWhere (eeWhere (some 2)
      (oand (slope.map (fun s => decide (GAINING_SLOPE < s))) (significantTrend pValue)) 1)
      (oand (slope.map (fun s => decide (s < LOSING_SLOPE))) (significantTrend pValue)) 3

lemma trendClass_some (s : ℚ) :
    trendClass (some s) =
      some (if s < LOSING_SLOPE then 3 else if GAINING_SLOPE < s then 1 else 2) := by
  unfold trendClass eeWhere
  by_cases hg : GAINING_SLOPE < s <;> by_cases hl : s < LOSING_SLOPE <;> simp [hg, hl]

lemma trendClassSig_some (s p : ℚ) :
    trendClassSig (some s) (some p) =
      some (if s < LOSING_SLOPE ∧ p < SIGNIFICANCE_LEVEL then 3
            else if GAINING_SLOPE < s ∧ p < SIGNIFICANCE_LEVEL then 1 else 2) := by
  unfold trendClassSig significantTrend eeWhere oand
  by_cases hg : GAINING_SLOPE < s <;> by_cases hl : s < LOSING_SLOPE <;>
    by_cases hp : p < SIGNIFICANCE_LEVEL <;> simp [hg, hl, hp]

/-- C4.  In the significance-gated variant (`part_000`), for unmasked slope
and p-value the trend class is Gaining (1) iff `slope > 0.005` and
`p < 0.05`, Losing (3) iff `slope < -0.005` and `p < 0.05`, and Stable (2)
in every other case; in particular every pixel with `p >= 0.05` is Stable
regardless of slope magnitude. -/
theorem c4_significance_gated_trend (s p : ℚ) :
    (trendClassSig (some s) (some p) = some 1 ↔
      GAINING_SLOPE < s ∧ p < SIGNIFICANCE_LEVEL) ∧
    (trendClassSig (some s) (some p) = some 3 ↔
      s < LOSING_SLOPE ∧ p < SIGNIFICANCE_LEVEL) ∧
    (trendClassSig (some s) (some p) = some 2 ↔
      ¬ ((GAINING_SLOPE < s ∧ p < SIGNIFICANCE_LEVEL) ∨
         (s < LOSING_SLOPE ∧ p < SIGNIFICANCE_LEVEL))) ∧
    (SIGNIFICANCE_LEVEL ≤ p → trendClassSig (some s) (some p) = some 2) := by
  have hGL : LOSING_SLOPE < GAINING_SLOPE := by
    unfold LOSING_SLOPE GAINING_SLOPE; norm_num
  by_cases hg : GAINING_SLOPE < s
  · by_cases hl : s < LOSING_SLOPE
    · exact absurd (hl.trans hGL) (not_lt.mpr hg.le)
    · by_cases hp : p < SIGNIFICANCE_LEVEL <;>
        simp [trendClassSig_some, hg, hl, hp]
  · by_cases hl : s < LOSING_SLOPE <;>
      by_cases hp : p < SIGNIFICANCE_LEVEL <;>
        simp [trendClassSig_some, hg, hl, hp]

/-- C4 (witness): a steep gaining slope with a non-significant p-value is
forced to Stable. -/
theorem c4_witness :
    SIGNIFICANCE_LEVEL ≤ (1 : ℚ) / 10 ∧
      trendClassSig (some (1 / 100)) (some (1 / 10)) = some 2 :=
  ⟨by norm_num [SIGNIFICANCE_LEVEL],
    (c4_significance_gated_trend (1 / 100) (1 / 10)).2.2.2
      (by norm_num [SIGNIFICANCE_LEVEL])⟩

/-! Change classification, 9-class taxonomy of `ndvi_threshold_change.js`
lines 157-198.  The script mutates a running `changeClass` image through nine
`where` calls; each stage is named `ccMainK` here, and `tMainK` is the test
image passed to the K-th `where`.  Rules 7-9 guard on `changeClass.eq(0)` of
the running value. -/

/-- Rule 1 test: Canopy Loss, `startClass.eq(1).and(endClass.gte(3))`. -/
def tMain1 (sC eC : Option ℤ) : Option Bool :=
  oand (imgEq sC 1) (imgGte eC 3)

/-- Rule 2 test: Canopy Thinning, Dense to Transitional with Losing trend. -/
def tMain2 (sC eC tC : Option ℤ) : Option Bool :=
  oand (oand (imgEq sC 1) (imgEq eC 2)) (imgEq tC 3)

/-- Rule 3 test: Emerging Biomass, Sparse to Transitional with Gaining trend. -/
def tMain3 (sC eC tC : Option ℤ) : Option Bool :=
  oand (oand (imgEq sC 3) (imgEq eC 2)) (imgEq tC 1)

/-- Rule 4 test: Canopy Thickening, Transitional to Dense with Gaining trend. -/
def tMain4 (sC eC tC : Option ℤ) : Option Bool :=
  oand (oand (imgEq sC 2) (imgEq eC 1)) (imgEq tC 1)

/-- Rule 5 test: Canopy Densification, Dense to Dense with Gaining trend. -/
def tMain5 (sC eC tC : Option ℤ) : Option Bool :=
  oand (oand (imgEq sC 1) (imgEq eC 1)) (imgEq tC 1)

/-- Source (`ndvi_threshold_change.js` line 180): the establishment mask,
`startClass.gte(3).and(endClass.eq(1))`. -/
def establishmentMask (sC eC : Option ℤ) : Option Bool :=
  oand (imgGte sC 3) (imgEq eC 1)

/-- Running classification after rule 1 (base `ee.Image(0)`). -/
def ccMain1 (sC eC : Option ℤ) : Option ℤ :=
  eeWhere (some 0) (tMain1 sC eC) 1

/-- Running classification after rule 2. -/
def ccMain2 (sC eC tC : Option ℤ) : Option ℤ :=
  eeWhere (ccMain1 sC eC) (tMain2 sC eC tC) 2

/-- Running classification after rule 3. -/
def ccMain3 (sC eC tC : Option ℤ) : Option ℤ :=
  eeWhere (ccMain2 sC eC tC) (tMain3 sC eC tC) 3

/-- Running classification after rule 4. -/
def ccMain4 (sC eC tC : Option ℤ) : Option ℤ :=
  eeWhere (ccMain3 sC eC tC) (tMain4 sC eC tC) 4

/-- Running classification after rule 5. -/
def ccMain5 (sC eC tC : Option ℤ) : Option ℤ :=
  eeWhere (ccMain4 sC eC tC) (tMain5 sC eC tC) 5

/-- Running classification after rule 6 (Canopy Establishment). -/
def ccMain6 (sC eC tC : Option ℤ) : Option ℤ :=
  eeWhere (ccMain5 sC eC tC) (establishmentMask sC eC) 6

/-- Rule 7 test: Edge Expansion, Sparse to Transitional, not already flagged
(`startClass.eq(3).and(endClass.eq(2)).and(changeClass.eq(0))`). -/
def tMain7 (sC eC tC : Option ℤ) : Option Bool :=
  oand (oand (imgEq sC 3) (imgEq eC 2)) (imgEq (ccMain6 sC eC tC) 0)

/-- Running classification after rule 7. -/
def ccMain7 (sC eC tC : Option ℤ) : Option ℤ :=
  eeWhere (ccMain6 sC eC tC) (tMain7 sC eC tC) 7

/-- Rule 8 test: Edge Colonization, Transitional to Dense, not already flagged. -/
def tMain8 (sC eC tC : Option ℤ) : Option Bool :=
  oand (oand (imgEq sC 2) (imgEq eC 1)) (imgEq (ccMain7 sC eC tC) 0)

/-- Running classification after rule 8. -/
def ccMain8 (sC eC tC : Option ℤ) : Option ℤ :=
  eeWhere (ccMain7 sC eC tC) (tMain8 sC eC tC) 8

/-- Rule 9 test: Edge Retreat, Dense to Transitional, not already flagged. -/
def tMain9 (sC eC tC : Option ℤ) : Option Bool :=
  oand (oand (imgEq sC 1) (imgEq eC 2)) (imgEq (ccMain8 sC eC tC) 0)

/-- Source (`ndvi_threshold_change.js` lines 157-198): the final 9-class
change classification of a pixel from its start class, end class and trend
class codes. -/
def changeClass (sC eC tC : Option ℤ) : Option ℤ :=
  eeWhere (ccMain8 sC eC tC) (tMain9 sC eC tC) 9

/-! Change classification, 8-class taxonomy of `part_000` lines 193-230.
Rules 1-4 are purely state-driven (no trend gate, no `changeClass.eq(0)`
guard); rules 5, 7, 8 use the significance-gated trend class, and rules 7-8
also accept a recent slope above `GAINING_SLOPE`. -/

/-- Source (`part_000` line 223): `var isGaining =
trendClass.eq(1).or(recentSlope.gt(GAINING_SLOPE));`. -/
def isGaining (tC : Option ℤ) (recentSlope : Option ℚ) : Option Bool :=
  oor (imgEq tC 1) (recentSlope.map (fun r => decide (GAINING_SLOPE < r)))

/-- Running classification after rule 1 (Canopy Loss). -/
def ccAlt1 (sC eC : Option ℤ) : Option ℤ :=
  eeWhere (some 0) (oand (imgEq sC 1) (imgGte eC 3)) 1

/-- Running classification after rule 2 (Degradation, Dense to Transitional). -/
def ccAlt2 (sC eC : Option ℤ) : Option ℤ :=
  eeWhere (ccAlt1 sC eC) (oand (imgEq sC 1) (imgEq eC 2)) 2

/-- Running classification after rule 3 (Emerging Biomass, Sparse to Transitional). -/
def ccAlt3 (sC eC : Option ℤ) : Option ℤ :=
  eeWhere (ccAlt2 sC eC) (oand (imgEq sC 3) (imgEq eC 2)) 3

/-- Running classification after rule 4 (Maturation, Transitional to Dense). -/
def ccAlt4 (sC eC : Option ℤ) : Option ℤ :=
  eeWhere (ccAlt3 sC eC) (oand (imgEq sC 2) (imgEq eC 1)) 4

/-- Running classification after rule 5 (Densification, Dense to Dense with
significant gaining trend). -/
def ccAlt5 (sC eC tC : Option ℤ) : Option ℤ :=
  eeWhere (ccAlt4 sC eC) (oand (oand (imgEq sC 1) (imgEq eC 1)) (imgEq tC 1)) 5

/-- Running classification after rule 6 (Establishment, Sparse/Bare to Dense). -/
def ccAlt6 (sC eC tC : Option ℤ) : Option ℤ :=
  eeWhere (ccAlt5 sC eC tC) (oand (imgGte sC 3) (imgEq eC 1)) 6

/-- Running classification after rule 7 (Sparse Accumulation). -/
def ccAlt7 (sC eC tC : Option ℤ) (recentSlope : Option ℚ) : Option ℤ :=
  eeWhere (ccAlt6 sC eC tC) (oand (oand (imgEq sC 3) (imgEq eC 3)) (isGaining tC recentSlope)) 7

/-- Source (`part_000` lines 193-230): the final 8-class state-driven change
classification (rule 8 is Transitional Accumulation). -/
def changeClassAlt (sC eC tC : Option ℤ) (recentSlope : Option ℚ) : Option ℤ :=
  eeWhere (ccAlt7 sC eC tC recentSlope)
    (oand (oand (imgEq sC 2) (imgEq eC 2)) (isGaining tC recentSlope)) 8

lemma eeWhere_bound {t : Option Bool} {v lo hi : ℤ} {i : Option ℤ}
    (h : ∃ x, i = some x ∧ lo ≤ x ∧ x ≤ hi) (hv1 : lo ≤ v) (hv2 : v ≤ hi) :
    ∃ y, eeWhere i t v = some y ∧ lo ≤ y ∧ y ≤ hi := by
  obtain ⟨x, rfl, hx1, hx2⟩ := h
  by_cases ht : t = some true
  · exact ⟨v, by simp [eeWhere, ht], hv1, hv2⟩
  · exact ⟨x, by simp [eeWhere, ht], hx1, hx2⟩

/-- C10.  For every pixel (including pixels with masked inputs), the 9-class
change classification is an unmasked integer in `0..9`, and the 8-class
state-driven variant an unmasked integer in `0..8`, with 0 meaning no
change; each stage of the running classification preserves the range, so the
pixel value fits the 8-bit exported change-class layer. -/
theorem c10_change_class_range (sC eC tC : Option ℤ) (rC : Option ℚ) :
    (∃ v, changeClass sC eC tC = some v ∧ 0 ≤ v ∧ v ≤ 9) ∧
    (∃ v, changeClassAlt sC eC tC rC = some v ∧ 0 ≤ v ∧ v ≤ 8) := by
  constructor
  · have h0 : ∃ x, (some (0 : ℤ)) = some x ∧ 0 ≤ x ∧ x ≤ 9 :=
      ⟨0, rfl, le_refl 0, by norm_num⟩
    have h1 : ∃ y, ccMain1 sC eC = some y ∧ 0 ≤ y ∧ y ≤ 9 := by
      unfold ccMain1; exact eeWhere_bound h0 (by norm_num) (by norm_num)
    have h2 : ∃ y, ccMain2 sC eC tC = some y ∧ 0 ≤ y ∧ y ≤ 9 := by
      unfold ccMain2; exact eeWhere_bound h1 (by norm_num) (by norm_num)
    have h3 : ∃ y, ccMain3 sC eC tC = some y ∧ 0 ≤ y ∧ y ≤ 9 := by
      unfold ccMain3; exact eeWhere_bound h2 (by norm_num) (by norm_num)
    have h4 : ∃ y, ccMain4 sC eC tC = some y ∧ 0 ≤ y ∧ y ≤ 9 := by
      unfold ccMain4; exact eeWhere_bound h3 (by norm_num) (by norm_num)
    have h5 : ∃ y, ccMain5 sC eC tC = some y ∧ 0 ≤ y ∧ y ≤ 9 := by
      unfold ccMain5; exact eeWhere_bound h4 (by norm_num) (by norm_num)
    have h6 : ∃ y, ccMain6 sC eC tC = some y ∧ 0 ≤ y ∧ y ≤ 9 := by
      unfold ccMain6; exact eeWhere_bound h5 (by norm_num) (by norm_num)
    have h7 : ∃ y, ccMain7 sC eC tC = some y ∧ 0 ≤ y ∧ y ≤ 9 := by
      unfold ccMain7; exact eeWhere_bound h6 (by norm_num) (by norm_num)
    have h8 : ∃ y, ccMain8 sC eC tC = some y ∧ 0 ≤ y ∧ y ≤ 9 := by
      unfold ccMain8; exact eeWhere_bound h7 (by norm_num) (by norm_num)
    unfold changeClass
    exact eeWhere_bound h8 (by norm_num) (by norm_num)
  · have h0 : ∃ x, (some (0 : ℤ)) = some x ∧ 0 ≤ x ∧ x ≤ 8 :=
      ⟨0, rfl, le_refl 0, by norm_num⟩
    have h1 : ∃ y, ccAlt1 sC eC = some y ∧ 0 ≤ y ∧ y ≤ 8 := by
      unfold ccAlt1; exact eeWhere_bound h0 (by norm_num) (by norm_num)
    have h2 : ∃ y, ccAlt2 sC eC = some y ∧ 0 ≤ y ∧ y ≤ 8 := by
      unfold ccAlt2; exact eeWhere_bound h1 (by norm_num) (by norm_num)
    have h3 : ∃ y, ccAlt3 sC eC = some y ∧ 0 ≤ y ∧ y ≤ 8 := by
      unfold ccAlt3; exact eeWhere_bound h2 (by norm_num) (by norm_num)
    have h4 : ∃ y, ccAlt4 sC eC = some y ∧ 0 ≤ y ∧ y ≤ 8 := by
      unfold ccAlt4; exact eeWhere_bound h3 (by norm_num) (by norm_num)
    have h5 : ∃ y, ccAlt5 sC eC tC = some y ∧ 0 ≤ y ∧ y ≤ 8 := by
      unfold ccAlt5; exact eeWhere_bound h4 (by norm_num) (by norm_num)
    have h6 : ∃ y, ccAlt6 sC eC tC = some y ∧ 0 ≤ y ∧ y ≤ 8 := by
      unfold ccAlt6; exact eeWhere_bound h5 (by norm_num) (by norm_num)
    have h7 : ∃ y, ccAlt7 sC eC tC rC = some y ∧ 0 ≤ y ∧ y ≤ 8 := by
      unfold ccAlt7; exact eeWhere_bound h6 (by norm_num) (by norm_num)
    unfold changeClassAlt
    exact eeWhere_bound h7 (by norm_num) (by norm_num)

/-- The nine rule tests of the 9-class taxonomy, in source order, evaluated
at an unmasked pixel: the value of rule K's test is entry K-1. -/
def testsMain (s e t : ℤ) : List (Option Bool) :=
  [tMain1 (some s) (some e),
   tMain2 (some s) (some e) (some t),
   tMain3 (some s) (some e) (some t),
   tMain4 (some s) (some e) (some t),
   tMain5 (some s) (some e) (some t),
   establishmentMask (some s) (some e),
   tMain7 (some s) (some e) (some t),
   tMain8 (some s) (some e) (some t),
   tMain9 (some s) (some e) (some t)]

/-- The eight rule tests of the 8-class taxonomy of `part_000`, in source
order, evaluated at an unmasked pixel. -/
def testsAlt (s e t : ℤ) (r : ℚ) : List (Option Bool) :=
  [oand (imgEq (some s) 1) (imgGte (some e) 3),
   oand (imgEq (some s) 1) (imgEq (some e) 2),
   oand (imgEq (some s) 3) (imgEq (some e) 2),
   oand (imgEq (some s) 2) (imgEq (some e) 1),
   oand (oand (imgEq (some s) 1) (imgEq (some e) 1)) (imgEq (some t) 1),
   oand (imgGte (some s) 3) (imgEq (some e) 1),
   oand (oand (imgEq (some s) 3) (imgEq (some e) 3)) (isGaining (some t) (some r)),
   oand (oand (imgEq (some s) 2) (imgEq (some e) 2)) (isGaining (some t) (some r))]

lemma changeRules_main_exclusive (s e t : ℤ)
    (hs1 : 1 ≤ s) (hs2 : s ≤ 4) (he1 : 1 ≤ e) (he2 : e ≤ 4)
    (ht1 : 1 ≤ t) (ht2 : t ≤ 3) :
    (testsMain s e t).countP (fun o => decide (o = some true)) ≤ 1 ∧
    (∀ i, i < (testsMain s e t).length →
      (testsMain s e t).getD i none = some true →
        changeClass (some s) (some e) (some t) = some ((i : ℤ) + 1)) ∧
    ((∀ o ∈ testsMain s e t, o ≠ some true) →
        changeClass (some s) (some e) (some t) = some 0) := by
  interval_cases s <;> interval_cases e <;> interval_cases t <;> decide

lemma isGaining_some (t : ℤ) (r : ℚ) :
    isGaining (some t) (some r) = some (decide (t = 1) || decide (GAINING_SLOPE < r)) := by
  simp [isGaining, oor, imgEq]

lemma changeRules_alt_exclusive (s e t : ℤ) (r : ℚ)
    (hs1 : 1 ≤ s) (hs2 : s ≤ 4) (he1 : 1 ≤ e) (he2 : e ≤ 4)
    (ht1 : 1 ≤ t) (ht2 : t ≤ 3) :
    (testsAlt s e t r).countP (fun o => decide (o = some true)) ≤ 1 ∧
    (∀ i, i < (testsAlt s e t r).length →
      (testsAlt s e t r).getD i none = some true →
        changeClassAlt (some s) (some e) (some t) (some r) = some ((i : ℤ) + 1)) ∧
    ((∀ o ∈ testsAlt s e t r, o ≠ some true) →
        changeClassAlt (some s) (some e) (some t) (some r) = some 0) := by
  rcases lt_or_le GAINING_SLOPE r with hr | hr
  · have hb : decide (GAINING_SLOPE < r) = true := decide_eq_true hr
    interval_cases s <;> interval_cases e <;> interval_cases t <;>
      simp only [testsAlt, changeClassAlt, ccAlt7, isGaining_some, hb] <;> decide
  · have hb : decide (GAINING_SLOPE < r) = false := decide_eq_false (not_lt.mpr hr)
    interval_cases s <;> interval_cases e <;> interval_cases t <;>
      simp only [testsAlt, changeClassAlt, ccAlt7, isGaining_some, hb] <;> decide

/-- C2.  In both taxonomies, for every in-range input triple (start class,
end class, trend class) — and any recent slope in the 8-class variant — at
most one change-classification rule test is true; when rule K's test is true
the pixel's change class is K, and when no test is true it is the default 0;
the result is never determined by two simultaneously matching rules. -/
theorem c2_change_rules_mutually_exclusive (s e t : ℤ) (r : ℚ)
    (hs1 : 1 ≤ s) (hs2 : s ≤ 4) (he1 : 1 ≤ e) (he2 : e ≤ 4)
    (ht1 : 1 ≤ t) (ht2 : t ≤ 3) :
    ((testsMain s e t).countP (fun o => decide (o = some true)) ≤ 1 ∧
     (∀ i, i < (testsMain s e t).length →
       (testsMain s e t).getD i none = some true →
         changeClass (some s) (some e) (some t) = some ((i : ℤ) + 1)) ∧
     ((∀ o ∈ testsMain s e t, o ≠ some true) →
         changeClass (some s) (some e) (some t) = some 0)) ∧
    ((testsAlt s e t r).countP (fun o => decide (o = some true)) ≤ 1 ∧
     (∀ i, i < (testsAlt s e t r).length →
       (testsAlt s e t r).getD i none = some true →
         changeClassAlt (some s) (some e) (some t) (some r) = some ((i : ℤ) + 1)) ∧
     ((∀ o ∈ testsAlt s e t r, o ≠ some true) →
         changeClassAlt (some s) (some e) (some t) (some r) = some 0)) :=
  ⟨changeRules_main_exclusive s e t hs1 hs2 he1 he2 ht1 ht2,
   changeRules_alt_exclusive s e t r hs1 hs2 he1 he2 ht1 ht2⟩

/-- C2 (witness): instantiated at start class Sparse (3), end class
Transitional (2), trend Gaining (1), recent slope 0. -/
theorem c2_witness :
    (1 : ℤ) ≤ 3 ∧ (3 : ℤ) ≤ 4 ∧ (1 : ℤ) ≤ 2 ∧ (2 : ℤ) ≤ 4 ∧
    (1 : ℤ) ≤ 1 ∧ (1 : ℤ) ≤ 3 ∧
    ((testsMain 3 2 1).countP (fun o => decide (o = some true)) ≤ 1 ∧
      changeClass (some 3) (some 2) (some 1) = some 3) ∧
    ((testsAlt 3 2 1 0).countP (fun o => decide (o = some true)) ≤ 1 ∧
      changeClassAlt (some 3) (some 2) (some 1) (some 0) = some 3) := by
  have h := c2_change_rules_mutually_exclusive 3 2 1 0
    (by norm_num) (by norm_num) (by norm_num) (by norm_num) (by norm_num) (by norm_num)
  refine ⟨by norm_num, by norm_num, by norm_num, by norm_num, by norm_num, by norm_num,
    ⟨h.1.1, ?_⟩, ⟨h.2.1, ?_⟩⟩
  · have := h.1.2.1 2 (by decide) (by decide)
    simpa using this
  · have := h.2.2.1 2 (by decide) ?_
    · simpa using this
    · decide

/-! Canopy establishment epochs.  Both scripts generate a list of five-year
bins starting at `startYear + 5`; `part_000` lines 239-252 merge a trailing
remainder shorter than 3 years into the final bin, while
`ndvi_threshold_change.js` lines 204-208 simply truncate the final bin at
`endYear`. -/

/-- One entry of the `epochs` array: `{ start: y, end: ..., label: y }`.
The source's `end` field is called `stop` here (`end` is reserved in Lean). -/
structure Bin where
  start : ℤ
  stop : ℤ
  label : ℤ
deriving DecidableEq

/-- Loop body of the epoch generation of `part_000` lines 239-252: starting
at year `y`, emit standard 5-year bins, and when the remaining tail after the
next bin start would be shorter than 3 years
(`yearsRemaining = endYear - nextStart + 1 < 3`) merge the remainder into
the current bin and stop. -/
def epochsGoAlt (e y : ℤ) : List Bin :=
  if y ≤ e then
    if e - (y + 5) + 1 < 3 then [⟨y, e, y⟩]
    else ⟨y, y + 4, y⟩ :: epochsGoAlt e (y + 5)
  else []
termination_by (e + 1 - y).toNat
decreasing_by omega

/-- Source (`part_000` lines 234-252): the generated epoch bin list for a
configuration `(startYear, endYear)`; the loop starts at `startYear + 5`. -/
def epochsAlt (s e : ℤ) : List Bin := epochsGoAlt e (s + 5)

/-- Loop body of the epoch generation of `ndvi_threshold_change.js` lines
204-208: 5-year steps with `eEnd = Math.min(y + 4, endYear)`. -/
def epochsGoMain (e y : ℤ) : List Bin :=
  if y ≤ e then ⟨y, min (y + 4) e, y⟩ :: epochsGoMain e (y + 5) else []
termination_by (e + 1 - y).toNat
decreasing_by omega

/-- Source (`ndvi_threshold_change.js` lines 202-208): the epoch bin list. -/
def epochsMain (s e : ℤ) : List Bin := epochsGoMain e (s + 5)

/-- One member of `epochCollection` at one pixel: the bin's seasonal
composite `f b` thresholded at `DENSE_CANOPY`, multiplied by the bin label,
self-masked and cast to int
(`img.gte(DENSE_CANOPY).multiply(epoch.label).selfMask().toInt()`). -/
def epochImage (a : ℚ) (f : Bin → Option ℚ) (b : Bin) : Option ℤ :=
  selfMask ((f b).map (fun n => (if DENSE_CANOPY a ≤ n then 1 else 0) * b.label))

/-- Pointwise minimum of two maskable values (one step of
`ImageCollection.min()`): masked entries are ignored. -/
def minOpt (o m : Option ℤ) : Option ℤ :=
  match o, m with
  | none, m => m
  | some v, none => some v
  | some v, some w => some (min v w)

/-- Model of `epochCollection.min()` at one pixel: minimum over the unmasked
members, masked when every member is masked. -/
def collectionMin : List (Option ℤ) → Option ℤ
  | [] => none
  | o :: rest => minOpt o (collectionMin rest)

/-- Source (`part_000` line 268): the epoch mask
`startClass.gte(2).and(endClass.eq(1))` (baseline non-Dense, end Dense). -/
def epochValidMask (sC eC : Option ℤ) : Option Bool :=
  oand (imgGte sC 2) (imgEq eC 1)

/-- Source (`part_000` line 269): the per-pixel establishment epoch,
`epochCollection.min().updateMask(epochValidMask)`, with `f` the pixel's
per-bin seasonal composite. -/
def establishmentEpochAlt (a : ℚ) (f : Bin → Option ℚ) (sC eC : Option ℤ) : Option ℤ :=
  updateMask (collectionMin ((epochsAlt startYear endYear).map (epochImage a f)))
    (epochValidMask sC eC)

/-- Source (`ndvi_threshold_change.js` line 222): the per-pixel establishment
epoch, `epochCollection.min().updateMask(establishmentMask)`. -/
def establishmentEpochMain (a : ℚ) (f : Bin → Option ℚ) (sC eC : Option ℤ) : Option ℤ :=
  updateMask (collectionMin ((epochsMain startYear endYear).map (epochImage a f)))
    (establishmentMask sC eC)

lemma minOpt_eq_some {o m : Option ℤ} {l : ℤ} (h : minOpt o m = some l) :
    o = some l ∨ m = some l := by
  rcases o with _ | v
  · right; simpa [minOpt] using h
  · rcases m with _ | w
    · left; simpa [minOpt] using h
    · simp only [minOpt, Option.some.injEq] at h
      rcases min_choice v w with hc | hc
      · left; rw [← h, hc]
      · right; rw [← h, hc]

lemma collectionMin_mem : ∀ (L : List (Option ℤ)) (l : ℤ),
    collectionMin L = some l → some l ∈ L := by
  intro L
  induction L with
  | nil => intro l h; simp [collectionMin] at h
  | cons o rest ih =>
    intro l h
    unfold collectionMin at h
    rcases minOpt_eq_some h with h1 | h1
    · exact h1 ▸ List.mem_cons_self o rest
    · exact List.mem_cons_of_mem o (ih l h1)

lemma epochImage_label {a : ℚ} {f : Bin → Option ℚ} {b : Bin} {l : ℤ}
    (h : epochImage a f b = some l) : l = b.label := by
  unfold epochImage at h
  rcases hf : f b with _ | n
  · rw [hf] at h; simp [selfMask] at h
  · rw [hf] at h
    simp only [Option.map_some'] at h
    by_cases hd : DENSE_CANOPY a ≤ n
    · simp only [hd, if_true, one_mul, selfMask] at h
      by_cases h0 : b.label = 0
      · simp [h0] at h
      · simp [h0] at h; omega
    · simp [hd, selfMask] at h

lemma epochsGoAlt_label_ge : ∀ (k : ℕ) (e y : ℤ), (e + 1 - y).toNat ≤ k →
    ∀ b ∈ epochsGoAlt e y, y ≤ b.label := by
  intro k
  induction k with
  | zero =>
    intro e y hk b hb
    have hy : ¬ y ≤ e := by omega
    unfold epochsGoAlt at hb
    rw [if_neg hy] at hb
    simp at hb
  | succ k ih =>
    intro e y hk b hb
    unfold epochsGoAlt at hb
    by_cases hy : y ≤ e
    · rw [if_pos hy] at hb
      by_cases hm : e - (y + 5) + 1 < 3
      · rw [if_pos hm] at hb
        simp at hb
        subst hb; exact le_refl y
      · rw [if_neg hm] at hb
        simp at hb
        rcases hb with hb | hb
        · subst hb; exact le_refl y
        · have := ih e (y + 5) (by omega) b hb
          omega
    · rw [if_neg hy] at hb
      simp at hb

lemma epochsGoMain_label_ge : ∀ (k : ℕ) (e y : ℤ), (e + 1 - y).toNat ≤ k →
    ∀ b ∈ epochsGoMain e y, y ≤ b.label := by
  intro k
  induction k with
  | zero =>
    intro e y hk b hb
    have hy : ¬ y ≤ e := by omega
    unfold epochsGoMain at hb
    rw [if_neg hy] at hb
    simp at hb
  | succ k ih =>
    intro e y hk b hb
    unfold epochsGoMain at hb
    by_cases hy : y ≤ e
    · rw [if_pos hy] at hb
      simp at hb
      rcases hb with hb | hb
      · subst hb; exact le_refl y
      · have := ih e (y + 5) (by omega) b hb
        omega
    · rw [if_neg hy] at hb
      simp at hb

lemma oand_eq_some_true {a b : Option Bool} (h : oand a b = some true) :
    a = some true ∧ b = some true := by
  rcases a with _ | x <;> rcases b with _ | y <;> simp [oand] at h ⊢
  exact h

lemma imgGte_eq_some_true {img : Option ℤ} {k : ℤ} (h : imgGte img k = some true) :
    ∃ v, img = some v ∧ k ≤ v := by
  rcases img with _ | v
  · simp [imgGte] at h
  · simp [imgGte] at h
    exact ⟨v, rfl, h⟩

lemma imgEq_eq_some_true {img : Option ℤ} {k : ℤ} (h : imgEq img k = some true) :
    img = some k := by
  rcases img with _ | v
  · simp [imgEq] at h
  · simp [imgEq] at h
    rw [h]

lemma establishmentEpoch_bounds {a : ℚ} {f : Bin → Option ℚ}
    {l : ℤ} {L : List Bin} {m : Option Bool}
    (hL : ∀ b ∈ L, startYear + 5 ≤ b.label)
    (h : updateMask (collectionMin (L.map (epochImage a f))) m = some l) :
    startYear + 5 ≤ l ∧ m = some true := by
  unfold updateMask at h
  by_cases hm : m = some true
  · rw [if_pos hm] at h
    obtain hmem := collectionMin_mem _ _ h
    obtain ⟨b, hb, himg⟩ := List.mem_map.mp hmem
    have hlab := epochImage_label himg
    exact ⟨hlab ▸ hL b hb, hm⟩
  · rw [if_neg hm] at h
    exact absurd h (by simp)

/-- C5.  In both variants, an assigned establishment epoch label is never
earlier than `startYear + 5` (1990 for the default configuration), and a
pixel only receives a label if it passes the establishment/maturation
state-transition mask: its baseline class is non-Dense (code at least 2) and
its end class is Dense (code 1). -/
theorem c5_epoch_label_bounds (a : ℚ) (f g : Bin → Option ℚ) (sC eC : Option ℤ)
    (l m : ℤ) :
    (establishmentEpochAlt a f sC eC = some l →
      startYear + 5 ≤ l ∧ (∃ sv, sC = some sv ∧ 2 ≤ sv) ∧ eC = some 1) ∧
    (establishmentEpochMain a g sC eC = some m →
      startYear + 5 ≤ m ∧ (∃ sv, sC = some sv ∧ 2 ≤ sv) ∧ eC = some 1) := by
  constructor
  · intro h
    unfold establishmentEpochAlt at h
    have hL : ∀ b ∈ epochsAlt startYear endYear, startYear + 5 ≤ b.label :=
      epochsGoAlt_label_ge (endYear + 1 - (startYear + 5)).toNat endYear
        (startYear + 5) (le_refl _)
    obtain ⟨hl, hm⟩ := establishmentEpoch_bounds hL h
    obtain ⟨h1, h2⟩ := oand_eq_some_true hm
    obtain ⟨sv, hsv, hsv2⟩ := imgGte_eq_some_true h1
    exact ⟨hl, ⟨sv, hsv, hsv2⟩, imgEq_eq_some_true h2⟩
  · intro h
    unfold establishmentEpochMain at h
    have hL : ∀ b ∈ epochsMain startYear endYear, startYear + 5 ≤ b.label :=
      epochsGoMain_label_ge (endYear + 1 - (startYear + 5)).toNat endYear
        (startYear + 5) (le_refl _)
    obtain ⟨hl, hm⟩ := establishmentEpoch_bounds hL h
    obtain ⟨h1, h2⟩ := oand_eq_some_true hm
    obtain ⟨sv, hsv, hsv2⟩ := imgGte_eq_some_true h1
    exact ⟨hl, ⟨sv, hsv, by omega⟩, imgEq_eq_some_true h2⟩

lemma epochsAlt_default : epochsAlt startYear endYear =
    [⟨1990, 1994, 1990⟩, ⟨1995, 1999, 1995⟩, ⟨2000, 2004, 2000⟩, ⟨2005, 2009, 2005⟩,
     ⟨2010, 2014, 2010⟩, ⟨2015, 2019, 2015⟩, ⟨2020, 2025, 2020⟩] := by
  unfold epochsAlt startYear endYear
  norm_num
  repeat (rw [epochsGoAlt]; norm_num)

/-- C5 (witness): with every bin composite at NDVI 1 and a Sparse-to-Dense
pixel, the assigned label is 1990, the earliest admissible epoch. -/
theorem c5_witness :
    establishmentEpochAlt 0 (fun _ => some 1) (some 3) (some 1) = some 1990 ∧
    startYear + 5 ≤ 1990 ∧ (∃ sv, (some 3 : Option ℤ) = some sv ∧ 2 ≤ sv) ∧
    (some 1 : Option ℤ) = some 1 := by
  have heq : establishmentEpochAlt 0 (fun _ => some 1) (some 3) (some 1) = some 1990 := by
    unfold establishmentEpochAlt
    rw [epochsAlt_default]
    norm_num [epochImage, selfMask, collectionMin, minOpt, updateMask,
      epochValidMask, oand, imgGte, imgEq, DENSE_CANOPY, min_def]
  exact ⟨heq,
    (c5_epoch_label_bounds 0 (fun _ => some 1) (fun _ => some 1)
      (some 3) (some 1) 1990 1990).1 heq⟩

/-- C6 (counterexample).  The claim says that for every configuration with
`endYear >= startYear + 5` no standalone bin narrower than 3 years is ever
produced.  With `startYear = 1985`, `endYear = 1990` the loop emits the
single 1-year bin 1990-1990: at the first iteration the remainder check
already fires (`1990 - 1995 + 1 < 3`) and merges nothing into a bin that
spans just the one remaining year. -/
theorem c6_counterexample_narrow_final_bin :
    (1985 : ℤ) + 5 ≤ 1990 ∧
    epochsAlt 1985 1990 = [⟨1990, 1990, 1990⟩] ∧
    ∃ b ∈ epochsAlt 1985 1990, b.stop - b.start + 1 < 3 := by
  have hlist : epochsAlt 1985 1990 = [⟨1990, 1990, 1990⟩] := by
    unfold epochsAlt
    rw [epochsGoAlt]; norm_num
  refine ⟨by norm_num, hlist, ⟨⟨1990, 1990, 1990⟩, ?_, by decide⟩⟩
  rw [hlist]
  exact List.mem_singleton.mpr rfl

lemma epochsGoAlt_spec : ∀ (k : ℕ) (e y : ℤ), (e - y).toNat ≤ k → y + 2 ≤ e →
    ∃ b0 bl, (epochsGoAlt e y).head? = some b0 ∧
      (epochsGoAlt e y).getLast? = some bl ∧
      b0.start = y ∧ bl.stop = e ∧
      3 ≤ e - bl.start + 1 ∧ e - bl.start + 1 ≤ 7 ∧
      (∀ b ∈ (epochsGoAlt e y).dropLast, b.stop - b.start + 1 = 5) ∧
      List.Chain' (fun p q => q.start = p.stop + 1) (epochsGoAlt e y) ∧
      (∀ b ∈ epochsGoAlt e y, b.start ≤ b.stop) := by
  intro k
  induction k with
  | zero => intro e y hk hy; omega
  | succ k ih =>
    intro e y hk hy
    have hye : y ≤ e := by omega
    by_cases hm : e - (y + 5) + 1 < 3
    · have hlist : epochsGoAlt e y = [⟨y, e, y⟩] := by
        unfold epochsGoAlt; rw [if_pos hye, if_pos hm]
      refine ⟨⟨y, e, y⟩, ⟨y, e, y⟩, ?_, ?_, rfl, rfl, ?_, ?_, ?_, ?_, ?_⟩
      · rw [hlist]; rfl
      · rw [hlist]; rfl
      · show 3 ≤ e - y + 1
        omega
      · show e - y + 1 ≤ 7
        omega
      · rw [hlist]; intro b hb; simp at hb
      · rw [hlist]; simp
      · rw [hlist]; intro b hb
        rw [List.mem_singleton] at hb
        subst hb
        show y ≤ e
        omega
    · have hrec : epochsGoAlt e y = ⟨y, y + 4, y⟩ :: epochsGoAlt e (y + 5) := by
        rw [epochsGoAlt]
        rw [if_pos hye, if_neg hm]
      obtain ⟨b0, bl, ih1, ih2, ih3, ih4, ih5, ih6, ih7, ih8, ih9⟩ :=
        ih e (y + 5) (by omega) (by omega)
      rcases hrest : epochsGoAlt e (y + 5) with _ | ⟨rb, rtl⟩
      · rw [hrest] at ih1; simp at ih1
      · have hrb : rb = b0 := by
          rw [hrest] at ih1
          simpa using ih1
        refine ⟨⟨y, y + 4, y⟩, bl, ?_, ?_, rfl, ih4, ih5, ih6, ?_, ?_, ?_⟩
        · rw [hrec]; rfl
        · rw [hrec, hrest, List.getLast?_cons_cons]
          rw [hrest] at ih2
          exact ih2
        · rw [hrec, hrest, List.dropLast_cons₂]
          intro b hb
          rcases List.mem_cons.mp hb with hb | hb
          · subst hb
            show y + 4 - y + 1 = 5
            omega
          · rw [hrest] at ih7
            exact ih7 b hb
        · rw [hrec, hrest, List.chain'_cons]
          constructor
          · show rb.start = y + 4 + 1
            rw [hrb, ih3]
            omega
          · rw [hrest] at ih8
            exact ih8
        · intro b hb
          rw [hrec] at hb
          rcases List.mem_cons.mp hb with hb | hb
          · subst hb
            show y ≤ y + 4
            omega
          · exact ih9 b hb

/-- C6 (amended).  For every configuration with `endYear >= startYear + 7`,
the epoch bin list of `part_000` is nonempty, starts at `startYear + 5`, is
contiguous (each bin starts the year after the previous one ends, so bins
are non-overlapping) and ends exactly at `endYear`; every bin except the
final one is exactly 5 years wide, and the final bin is between 3 and 7
years wide — a trailing remainder shorter than 3 years is absorbed into it.
(When `endYear` is `startYear + 5` or `startYear + 6` the loop instead emits
a single bin narrower than 3 years, as the counterexample shows.) -/
theorem c6_epoch_bins_amended (s e : ℤ) (h : s + 7 ≤ e) :
    ∃ b0 bl, (epochsAlt s e).head? = some b0 ∧
      (epochsAlt s e).getLast? = some bl ∧
      b0.start = s + 5 ∧ bl.stop = e ∧
      3 ≤ bl.stop - bl.start + 1 ∧ bl.stop - bl.start + 1 ≤ 7 ∧
      (∀ b ∈ (epochsAlt s e).dropLast, b.stop - b.start + 1 = 5) ∧
      List.Chain' (fun p q => q.start = p.stop + 1) (epochsAlt s e) ∧
      (∀ b ∈ epochsAlt s e, b.start ≤ b.stop) := by
  obtain ⟨b0, bl, h1, h2, h3, h4, h5, h6, h7, h8, h9⟩ :=
    epochsGoAlt_spec (e - (s + 5)).toNat e (s + 5) (le_refl _) (by omega)
  exact ⟨b0, bl, h1, h2, h3, h4, by omega, by omega, h7, h8, h9⟩

/-- C6 (witness): the amended bin-list properties at the default
configuration 1985-2025. -/
theorem c6_witness :
    (1985 : ℤ) + 7 ≤ 2025 ∧
    (∃ b0 bl, (epochsAlt 1985 2025).head? = some b0 ∧
      (epochsAlt 1985 2025).getLast? = some bl ∧
      b0.start = 1985 + 5 ∧ bl.stop = 2025 ∧
      3 ≤ bl.stop - bl.start + 1 ∧ bl.stop - bl.start + 1 ≤ 7 ∧
      (∀ b ∈ (epochsAlt 1985 2025).dropLast, b.stop - b.start + 1 = 5) ∧
      List.Chain' (fun p q => q.start = p.stop + 1) (epochsAlt 1985 2025) ∧
      (∀ b ∈ epochsAlt 1985 2025, b.start ≤ b.stop)) :=
  ⟨by norm_num, c6_epoch_bins_amended 1985 2025 (by norm_num)⟩

/-! Trajectory projection.  `ndvi_threshold_change.js` lines 228-237 divide
by the long-term slope; `part_000` lines 277-286 divide by the recent slope
but still gate the displayed layer by the long-term (significance-gated)
trend class. -/

/-- Source (`ndvi_threshold_change.js` lines 228-233):
`endNDVI.subtract(DENSE_CANOPY).abs().divide(slope.abs())
.where(slope.lte(0), 9999).where(endNDVI.gte(DENSE_CANOPY), 0).clamp(0, 50)`. -/
def yearsToThreshold (a : ℚ) (endNDVI slope : Option ℚ) : Option ℚ :=
  (eeWhere (eeWhere
      (omap2 (fun n s => eeDiv |n - DENSE_CANOPY a| |s|) endNDVI slope)
      (slope.map (fun s => decide (s ≤ 0))) 9999)
      (endNDVI.map (fun n => decide (DENSE_CANOPY a ≤ n))) 0).map (eeClamp 0 50)

/-- Source (`ndvi_threshold_change.js` lines 236-237): the displayed
projection `yearsToThreshold.updateMask(projectionMask)` with
`projectionMask = trendClass.eq(1).and(endClass.gt(1))` and
`endClass = classifyNDVI(endNDVI)`. -/
def yearsToCanopy (a : ℚ) (endNDVI slope : Option ℚ) : Option ℚ :=
  updateMask (yearsToThreshold a endNDVI slope)
    (oand (imgEq (trendClass slope) 1) (imgGt (classifyNDVI a endNDVI) 1))

/-- Source (`part_000` lines 277-282): the projection of the significance
variant, dividing by the recent slope
(`endNDVI.subtract(DENSE_CANOPY).abs().divide(recentSlope.abs())
.where(recentSlope.lte(0), 9999).where(endNDVI.gte(DENSE_CANOPY), 0).clamp(0, 50)`). -/
def yearsToThresholdAlt (a : ℚ) (endNDVI recentSlope : Option ℚ) : Option ℚ :=
  (eeWhere (eeWhere
      (omap2 (fun n r => eeDiv |n - DENSE_CANOPY a| |r|) endNDVI recentSlope)
      (recentSlope.map (fun r => decide (r ≤ 0))) 9999)
      (endNDVI.map (fun n => decide (DENSE_CANOPY a ≤ n))) 0).map (eeClamp 0 50)

/-- Source (`part_000` lines 285-286): the displayed projection, masked by
the significance-gated trend class and `endClass.gt(1)`. -/
def yearsToCanopyAlt (a : ℚ) (endNDVI slope pValue recentSlope : Option ℚ) : Option ℚ :=
  updateMask (yearsToThresholdAlt a endNDVI recentSlope)
    (oand (imgEq (trendClassSig slope pValue) 1) (imgGt (classifyNDVI a endNDVI) 1))

lemma eeClamp_mem (v : ℚ) : 0 ≤ eeClamp 0 50 v ∧ eeClamp 0 50 v ≤ 50 := by
  unfold eeClamp
  exact ⟨le_min (le_max_right v 0) (by norm_num), min_le_right _ _⟩

lemma classifyNDVI_isSome (a : ℚ) (en : Option ℚ) :
    ∃ c, classifyNDVI a en = some c := by
  rcases en with _ | n
  · exact ⟨4, classifyNDVI_none a⟩
  · exact ⟨classifyStateSpec a n, classifyNDVI_some a n⟩

lemma yearsToCanopy_range {a : ℚ} {en sl : Option ℚ} {v : ℚ}
    (h : yearsToCanopy a en sl = some v) : 0 ≤ v ∧ v ≤ 50 := by
  unfold yearsToCanopy updateMask at h
  by_cases hm : oand (imgEq (trendClass sl) 1) (imgGt (classifyNDVI a en) 1) = some true
  · rw [if_pos hm] at h
    unfold yearsToThreshold at h
    obtain ⟨u, _, hu⟩ := Option.map_eq_some'.mp h
    exact hu ▸ eeClamp_mem u
  · rw [if_neg hm] at h
    exact absurd h (by simp)

lemma yearsToCanopyAlt_range {a : ℚ} {en sl p r : Option ℚ} {v : ℚ}
    (h : yearsToCanopyAlt a en sl p r = some v) : 0 ≤ v ∧ v ≤ 50 := by
  unfold yearsToCanopyAlt updateMask at h
  by_cases hm : oand (imgEq (trendClassSig sl p) 1) (imgGt (classifyNDVI a en) 1) = some true
  · rw [if_pos hm] at h
    unfold yearsToThresholdAlt at h
    obtain ⟨u, _, hu⟩ := Option.map_eq_some'.mp h
    exact hu ▸ eeClamp_mem u
  · rw [if_neg hm] at h
    exact absurd h (by simp)

lemma classifyStateSpec_gt_one {a n : ℚ} (hn : n < DENSE_CANOPY a) :
    1 < classifyStateSpec a n := by
  unfold classifyStateSpec
  rw [if_neg (not_le.mpr hn)]
  split_ifs <;> norm_num

lemma yearsToThreshold_gaining {a n s : ℚ} (hG : GAINING_SLOPE < s)
    (hn : n < DENSE_CANOPY a) :
    yearsToThreshold a (some n) (some s) =
      some (eeClamp 0 50 ((DENSE_CANOPY a - n) / s)) := by
  have hspos : 0 < s := lt_trans (by norm_num [GAINING_SLOPE]) hG
  have hs0 : ¬ s ≤ 0 := not_le.mpr hspos
  have hd : ¬ DENSE_CANOPY a ≤ n := not_le.mpr hn
  have hdiv : eeDiv |n - DENSE_CANOPY a| |s| = (DENSE_CANOPY a - n) / s := by
    unfold eeDiv
    rw [if_neg (ne_of_gt (abs_pos.mpr (ne_of_gt hspos)))]
    rw [abs_of_neg (by linarith), neg_sub, abs_of_pos hspos]
  unfold yearsToThreshold
  simp [omap2, eeWhere, hs0, hd, hdiv]

/-- C3 (counterexample).  The claim says the projection is masked whenever
the slope used for the projection is non-positive.  In the recent-slope
variant the mask is the long-term significance-gated trend class, so a
pixel with significant gaining long-term slope 0.01, end NDVI 0.5 and recent
slope -0.01 gets the unmasked cap value 50 instead of being masked. -/
theorem c3_counterexample_nonpositive_recent_slope :
    (-1 / 100 : ℚ) ≤ 0 ∧
    yearsToCanopyAlt 0 (some (1 / 2)) (some (1 / 100)) (some (1 / 100))
      (some (-1 / 100)) = some 50 ∧
    yearsToCanopyAlt 0 (some (1 / 2)) (some (1 / 100)) (some (1 / 100))
      (some (-1 / 100)) ≠ none := by
  have hcls : classifyNDVI 0 (some (1 / 2)) = some 2 := by
    rw [classifyNDVI_some]
    norm_num [classifyStateSpec, DENSE_CANOPY, TRANSITIONAL, SPARSE]
  have htr : trendClassSig (some (1 / 100)) (some (1 / 100)) = some 1 := by
    rw [trendClassSig_some]
    norm_num [GAINING_SLOPE, LOSING_SLOPE, SIGNIFICANCE_LEVEL]
  have heq : yearsToCanopyAlt 0 (some (1 / 2)) (some (1 / 100)) (some (1 / 100))
      (some (-1 / 100)) = some 50 := by
    unfold yearsToCanopyAlt yearsToThresholdAlt
    rw [hcls, htr]
    norm_num [imgEq, imgGt, oand, updateMask, eeWhere, omap2, eeDiv, eeClamp,
      DENSE_CANOPY, min_def, max_def]
  refine ⟨by norm_num, heq, ?_⟩
  rw [heq]
  exact fun h => Option.noConfusion h

/-- C3 (amended).  Long-term-slope variant (`ndvi_threshold_change.js`): for
a Gaining pixel below the Dense threshold the displayed projection equals
`clamp((DENSE_CANOPY - ndvi) / slope, 0, 50)`; `yearsToThreshold` is 0 at or
above the threshold; the displayed projection is masked whenever the slope
is non-positive; and every unmasked value lies in `[0, 50]`.  Recent-slope
variant (`part_000`): the same formula holds with the recent slope when that
slope is positive, but a Gaining pixel below the threshold whose recent
slope is non-positive receives the unmasked cap value 50 instead of being
masked; values remain in `[0, 50]`. -/
theorem c3_projection_amended :
    (∀ a n s : ℚ, GAINING_SLOPE < s → n < DENSE_CANOPY a →
      yearsToCanopy a (some n) (some s) =
        some (eeClamp 0 50 ((DENSE_CANOPY a - n) / s))) ∧
    (∀ a n s : ℚ, DENSE_CANOPY a ≤ n →
      yearsToThreshold a (some n) (some s) = some 0) ∧
    (∀ (a : ℚ) (en : Option ℚ) (s : ℚ), s ≤ 0 →
      yearsToCanopy a en (some s) = none) ∧
    (∀ (a : ℚ) (en sl : Option ℚ) (v : ℚ),
      yearsToCanopy a en sl = some v → 0 ≤ v ∧ v ≤ 50) ∧
    (∀ a n s p r : ℚ, GAINING_SLOPE < s → p < SIGNIFICANCE_LEVEL →
      n < DENSE_CANOPY a → 0 < r →
      yearsToCanopyAlt a (some n) (some s) (some p) (some r) =
        some (eeClamp 0 50 ((DENSE_CANOPY a - n) / r))) ∧
    (∀ a n s p r : ℚ, GAINING_SLOPE < s → p < SIGNIFICANCE_LEVEL →
      n < DENSE_CANOPY a → r ≤ 0 →
      yearsToCanopyAlt a (some n) (some s) (some p) (some r) = some 50) ∧
    (∀ a n r : ℚ, DENSE_CANOPY a ≤ n →
      yearsToThresholdAlt a (some n) (some r) = some 0) ∧
    (∀ (a : ℚ) (en sl p r : Option ℚ) (v : ℚ),
      yearsToCanopyAlt a en sl p r = some v → 0 ≤ v ∧ v ≤ 50) := by
  refine ⟨?_, ?_, ?_, ?_, ?_, ?_, ?_, ?_⟩
  · intro a n s hG hn
    have htr : trendClass (some s) = some 1 := by
      rw [trendClass_some]
      have h1 : ¬ s < LOSING_SLOPE := by
        norm_num [LOSING_SLOPE]
        norm_num [GAINING_SLOPE] at hG
        linarith
      rw [if_neg h1, if_pos hG]
    have h2 : 1 < classifyStateSpec a n := classifyStateSpec_gt_one hn
    unfold yearsToCanopy
    rw [htr, classifyNDVI_some]
    simp [imgEq, imgGt, oand, updateMask, h2]
    exact yearsToThreshold_gaining hG hn
  · intro a n s hD
    unfold yearsToThreshold
    simp [omap2, eeWhere, hD, eeClamp]
  · intro a en s hs
    have hntr : trendClass (some s) ≠ some 1 := by
      rw [trendClass_some]
      have hG : ¬ GAINING_SLOPE < s := by
        norm_num [GAINING_SLOPE]
        linarith
      split_ifs <;> simp_all
    obtain ⟨c, hc⟩ := classifyNDVI_isSome a en
    unfold yearsToCanopy
    rw [hc]
    rcases htc : trendClass (some s) with _ | tv
    · simp [imgEq, imgGt, oand, updateMask]
    · have : ¬ tv = 1 := by
        intro h1
        exact hntr (by rw [htc, h1])
      simp [imgEq, imgGt, oand, updateMask, this]
  · intro a en sl v h
    exact yearsToCanopy_range h
  · intro a n s p r hG hp hn hr
    have htr : trendClassSig (some s) (some p) = some 1 := by
      rw [trendClassSig_some]
      have h1 : ¬ (s < LOSING_SLOPE ∧ p < SIGNIFICANCE_LEVEL) := by
        intro ⟨h1, _⟩
        norm_num [LOSING_SLOPE] at h1
        norm_num [GAINING_SLOPE] at hG
        linarith
      rw [if_neg h1, if_pos ⟨hG, hp⟩]
    have h2 : 1 < classifyStateSpec a n := classifyStateSpec_gt_one hn
    have hr0 : ¬ r ≤ 0 := not_le.mpr hr
    have hd : ¬ DENSE_CANOPY a ≤ n := not_le.mpr hn
    have hdiv : eeDiv |n - DENSE_CANOPY a| |r| = (DENSE_CANOPY a - n) / r := by
      unfold eeDiv
      rw [if_neg (ne_of_gt (abs_pos.mpr (ne_of_gt hr)))]
      rw [abs_of_neg (by linarith), neg_sub, abs_of_pos hr]
    unfold yearsToCanopyAlt
    rw [htr, classifyNDVI_some]
    simp [imgEq, imgGt, oand, updateMask, h2]
    unfold yearsToThresholdAlt
    simp [omap2, eeWhere, hr0, hd, hdiv]
  · intro a n s p r hG hp hn hr
    have htr : trendClassSig (some s) (some p) = some 1 := by
      rw [trendClassSig_some]
      have h1 : ¬ (s < LOSING_SLOPE ∧ p < SIGNIFICANCE_LEVEL) := by
        intro ⟨h1, _⟩
        norm_num [LOSING_SLOPE] at h1
        norm_num [GAINING_SLOPE] at hG
        linarith
      rw [if_neg h1, if_pos ⟨hG, hp⟩]
    have h2 : 1 < classifyStateSpec a n := classifyStateSpec_gt_one hn
    have hd : ¬ DENSE_CANOPY a ≤ n := not_le.mpr hn
    unfold yearsToCanopyAlt
    rw [htr, classifyNDVI_some]
    simp [imgEq, imgGt, oand, updateMask, h2]
    unfold yearsToThresholdAlt
    simp [omap2, eeWhere, hr, hd]
    norm_num [eeClamp, min_def, max_def]
  · intro a n r hD
    unfold yearsToThresholdAlt
    simp [omap2, eeWhere, hD, eeClamp]
  · intro a en sl p r v h
    exact yearsToCanopyAlt_range h

/-- C3 (witness): in the long-term-slope variant, a significant gaining
slope of 0.01 at end NDVI 0.5 projects
`clamp((0.6 - 0.5) / 0.01, 0, 50) = 10` years. -/
theorem c3_witness :
    GAINING_SLOPE < (1 / 100 : ℚ) ∧ (1 / 2 : ℚ) < DENSE_CANOPY 0 ∧
    yearsToCanopy 0 (some (1 / 2)) (some (1 / 100)) =
      some (eeClamp 0 50 ((DENSE_CANOPY 0 - 1 / 2) / (1 / 100))) :=
  ⟨by norm_num [GAINING_SLOPE],
   by norm_num [DENSE_CANOPY],
   c3_projection_amended.1 0 (1 / 2) (1 / 100)
     (by norm_num [GAINING_SLOPE]) (by norm_num [DENSE_CANOPY])⟩

end NDVIChange
